import Mathlib

/-!
Shallow embedding of the Celcoin BaaS tester
(`src/test._cellcoin_endpoints.py`).

Modelling conventions:
* JSON values are an inductive `Json`; a Python `dict` is an association
  list of string keys, `dict.get` is `List.lookup` (returning `none`,
  i.e. Python `None`, when the key is absent).
* The ambient mutable token (`self.access_token`) is an `Option Json`
  field of `TesterState`; Python truthiness of the stored value is
  `pyTruthy`.
* The outside world (the `requests` library) is an explicit input
  `ReqOutcome`: either an `HttpResponse` (status, raw text, the JSON
  parse of the text when it parses, headers) or a raised transport
  exception carrying a message.  `response.json()` raising is
  represented by the `json` field being `none`.
* Wall-clock instants and elapsed times are abstract `Nat` ticks passed
  in as parameters (`time.time()` deltas, `datetime.now()`); per-result
  creation timestamps are not modelled since nothing computed from them
  feeds a property below.
* Python exceptions caught by a surrounding `try` are modelled by the
  corresponding branch of the Lean function; exceptions in the report
  generator surface as `Except.error`.
-/

inductive Json where
  | null
  | bool (b : Bool)
  | num (q : Rat)
  | str (s : String)
  | arr (elems : List Json)
  | obj (fields : List (String × Json))

/-- Python truthiness of a JSON value (`if value:`). -/
def Json.truthy : Json → Bool
  | .null => false
  | .bool b => b
  | .num q => decide (q ≠ 0)
  | .str s => decide (s ≠ "")
  | .arr l => !l.isEmpty
  | .obj l => !l.isEmpty

/-- Python truthiness of an optional value (`None` is falsy). -/
def pyTruthy : Option Json → Bool
  | none => false
  | some v => v.truthy

/-- Python string interpolation of an optional JSON value, as used in
`f"Bearer {self.access_token}"`.  Only the string and `None` cases are
exercised by the program; compound values are abbreviated. -/
def pyFormat : Option Json → String
  | none => "None"
  | some (.str s) => s
  | some (.num q) => toString q
  | some (.bool true) => "True"
  | some (.bool false) => "False"
  | some .null => "None"
  | some (.arr _) => "<list>"
  | some (.obj _) => "<dict>"

/-- `TestResult.__init__` defaults (source lines 26-39). -/
structure TestResult where
  test_name : String
  endpoint : String
  method : String
  request_payload : Option Json := none
  response_status : Option Nat := none
  response_body : Option Json := none
  response_headers : Option (List (String × String)) := none
  execution_time : Option Nat := none
  success : Bool := false
  error_message : Option String := none

/-- `TestSession` (source lines 41-59); the random short id and the
start instant are construction inputs. -/
structure TestSession where
  session_id : String
  start_time : Nat
  results : List TestResult := []
  end_time : Option Nat := none

/-- `TestSession.add_result` (lines 49-50). -/
def TestSession.add_result (s : TestSession) (r : TestResult) : TestSession :=
  { s with results := s.results ++ [r] }

/-- `TestSession.finish` (lines 52-53): unconditionally stores the
current instant as the end time. -/
def TestSession.finish (s : TestSession) (now : Nat) : TestSession :=
  { s with end_time := some now }

/-- `TestSession.get_duration` (lines 55-59): defined only once the end
time is set; `none` models the "Em andamento" branch. -/
def TestSession.get_duration (s : TestSession) : Option Nat :=
  s.end_time.map (fun t => t - s.start_time)

/-- Default `CELCOIN_BASE_URL` (line 63); the environment override is
outside the model. -/
def BASE_URL : String := "https://sandbox.openfinance.celcoin.dev"

/-- An HTTP response as seen through the `requests` response object:
`json = some v` exactly when `response.json()` would succeed with `v`. -/
structure HttpResponse where
  status : Nat
  text : String := ""
  json : Option Json := none
  headers : List (String × String) := []

/-- Outcome of attempting one HTTP request: a response, or a raised
transport exception with its message. -/
inductive ReqOutcome where
  | response (r : HttpResponse)
  | exception (msg : String)

/-- The mutable state of a `CelcoinTester`: the ambient token and the
session log (lines 195-199). -/
structure TesterState where
  access_token : Option Json := none
  session : TestSession

/-- `CelcoinTester.get_headers` (lines 306-311). -/
def get_headers (st : TesterState) : List (String × String) :=
  [("Authorization", "Bearer " ++ pyFormat st.access_token),
   ("Content-Type", "application/json")]

/-- Headers chosen at line 227: bearer headers when a token is held
(truthy), else a bare content-type header. -/
def request_headers (st : TesterState) : List (String × String) :=
  if pyTruthy st.access_token then get_headers st
  else [("Content-Type", "application/json")]

/-- Python `str.upper` restricted to ASCII, as applied to HTTP method
names (`method.upper()`, line 229). -/
def pyUpper (s : String) : String := String.mk (s.data.map Char.toUpper)

/-- Python `str.lower` restricted to ASCII, as applied to header names
(`k.lower()`, line 129). -/
def pyLower (s : String) : String := String.mk (s.data.map Char.toLower)

/-- The methods dispatched at lines 229-236. -/
def supported_methods : List String := ["POST", "GET", "PUT", "DELETE"]

/-- The statuses classified as success at line 249. -/
def success_statuses : List Nat := [200, 201, 202]

/-- Output of one `_make_request` call: the successor state, the
produced result, and the headers that were attached to the request. -/
structure RequestExec where
  newState : TesterState
  result : TestResult
  sent_headers : List (String × String)

/-- `CelcoinTester._make_request` (lines 217-260).  The `outcome`
argument is what the transport layer would deliver for this request and
`elapsed` the measured wall-clock delta.  An unsupported method raises
`ValueError` inside the `try`, so it lands in the same `except` branch
as a transport failure.  On every path the result is appended to the
session (line 259). -/
def make_request (st : TesterState) (method url : String)
    (payload params : Option Json) (test_name : String)
    (outcome : ReqOutcome) (elapsed : Nat) : RequestExec :=
  let base : TestResult :=
    { test_name := test_name, endpoint := url.replace BASE_URL "",
      method := method, request_payload := payload }
  let headers := request_headers st
  let result :=
    if supported_methods.contains (pyUpper method) then
      match outcome with
      | .response r =>
        { base with
          execution_time := some elapsed,
          response_status := some r.status,
          response_headers := some r.headers,
          response_body := some (r.json.getD (Json.obj [("raw_response", Json.str r.text)])),
          success := success_statuses.contains r.status,
          error_message :=
            if success_statuses.contains r.status then none
            else some ("HTTP " ++ toString r.status ++ ": " ++ r.text) }
      | .exception msg =>
        { base with
          execution_time := some elapsed,
          success := false,
          error_message := some msg }
    else
      { base with
        execution_time := some elapsed,
        success := false,
        error_message := some ("Método HTTP não suportado: " ++ method) }
  { newState := { st with session := st.session.add_result result },
    result := result, sent_headers := headers }

theorem make_request_newState_results (st : TesterState) (method url : String)
    (payload params : Option Json) (test_name : String)
    (outcome : ReqOutcome) (elapsed : Nat) :
    (make_request st method url payload params test_name outcome elapsed).newState.session.results
      = st.session.results
        ++ [(make_request st method url payload params test_name outcome elapsed).result] := rfl

theorem make_request_token (st : TesterState) (method url : String)
    (payload params : Option Json) (test_name : String)
    (outcome : ReqOutcome) (elapsed : Nat) :
    (make_request st method url payload params test_name outcome elapsed).newState.access_token
      = st.access_token := rfl

theorem make_request_end_time (st : TesterState) (method url : String)
    (payload params : Option Json) (test_name : String)
    (outcome : ReqOutcome) (elapsed : Nat) :
    (make_request st method url payload params test_name outcome elapsed).newState.session.end_time
      = st.session.end_time := rfl

theorem make_request_sent_headers (st : TesterState) (method url : String)
    (payload params : Option Json) (test_name : String)
    (outcome : ReqOutcome) (elapsed : Nat) :
    (make_request st method url payload params test_name outcome elapsed).sent_headers
      = request_headers st := rfl

/-- `CelcoinTester.authenticate` (lines 262-304).  The whole body sits
in one `try`: `response.json()` raising (unparseable body), or `.get`
on a non-dict 200 body, falls through to the `except` branch, which
logs and returns `False` without touching the token or the session. -/
def authenticate (st : TesterState) (outcome : ReqOutcome) : TesterState × Bool :=
  match outcome with
  | .exception _ => (st, false)
  | .response r =>
    let base : TestResult :=
      { test_name := "Autenticação OAuth2", endpoint := "/v5/token",
        method := "POST",
        request_payload := some (Json.obj
          [("client_id", Json.str "***"),
           ("grant_type", Json.str "client_credentials")]),
        response_status := some r.status,
        response_headers := some r.headers }
    if r.status = 200 then
      match r.json with
      | some (Json.obj fields) =>
        let result :=
          { base with
            response_body := some (Json.obj
              [("access_token", Json.str "***"),
               ("expires_in", (fields.lookup "expires_in").getD Json.null)]),
            success := true }
        ({ st with
           access_token := fields.lookup "access_token",
           session := st.session.add_result result }, true)
      | _ => (st, false)
    else
      match (if r.text = "" then some (Json.obj []) else r.json) with
      | some body =>
        let result :=
          { base with
            response_body := some body,
            success := false,
            error_message := some ("Erro na autenticação: " ++ toString r.status) }
        ({ st with session := st.session.add_result result }, false)
      | none => (st, false)

/-- Python `f"R$ {amount:.2f}"` on a nonnegative rational: two decimal
places, rounding half up (the binary-float rounding mode of `%.2f` is
not observable in any property below). -/
def fmt2 (q : Rat) : String :=
  let c : Int := (q * 100 + 1 / 2).floor
  let frac := (c % 100).natAbs
  toString (c / 100) ++ "." ++ (if frac < 10 then "0" else "") ++ toString frac

/-- `CelcoinTester.test_pix_dict_lookup` (lines 313-330). -/
def test_pix_dict_lookup (st : TesterState) (pix_key key_type : String)
    (outcome : ReqOutcome) (elapsed : Nat) : TesterState × Option Json :=
  let ex := make_request st "POST" (BASE_URL ++ "/pix/v1/dict/v2/key")
    (some (Json.obj [("key", Json.str pix_key), ("keyType", Json.str key_type)]))
    none ("DICT Lookup - " ++ key_type) outcome elapsed
  (ex.newState, if ex.result.success then ex.result.response_body else none)

/-- `CelcoinTester.test_pix_payment` (lines 332-357). -/
def test_pix_payment (st : TesterState) (amount : Rat)
    (pix_key key_type client_code description : String)
    (outcome : ReqOutcome) (elapsed : Nat) : TesterState × Option Json :=
  let ex := make_request st "POST" (BASE_URL ++ "/pix/v1/payment")
    (some (Json.obj
      [("amount", Json.num amount),
       ("receiver", Json.obj [("key", Json.str pix_key), ("keyType", Json.str key_type)]),
       ("clientCode", Json.str client_code),
       ("description", Json.str description),
       ("urgency", Json.str "HIGH"),
       ("initiationType", Json.str "MANUAL")]))
    none ("Pagamento PIX - R$ " ++ fmt2 amount) outcome elapsed
  (ex.newState, if ex.result.success then ex.result.response_body else none)

/-- `CelcoinTester.test_pix_status` (lines 359-373). -/
def test_pix_status (st : TesterState) (transaction_id : String)
    (outcome : ReqOutcome) (elapsed : Nat) : TesterState × Option Json :=
  let ex := make_request st "GET" (BASE_URL ++ "/pix/v1/payment/status")
    none (some (Json.obj [("transactionId", Json.str transaction_id)]))
    ("Status PIX - " ++ transaction_id.take 8 ++ "...") outcome elapsed
  (ex.newState, if ex.result.success then ex.result.response_body else none)

/-- `CelcoinTester.test_ted_transfer` (lines 375-405). -/
def test_ted_transfer (st : TesterState) (amount : Rat)
    (bank_code agency account recipient_name recipient_doc client_code : String)
    (outcome : ReqOutcome) (elapsed : Nat) : TesterState × Option Json :=
  let ex := make_request st "POST" (BASE_URL ++ "/v5/transactions/banktransfer")
    (some (Json.obj
      [("amount", Json.num amount),
       ("clientCode", Json.str client_code),
       ("bank", Json.obj
         [("bankCode", Json.str bank_code),
          ("agency", Json.str agency),
          ("account", Json.str account)]),
       ("recipient", Json.obj
         [("name", Json.str recipient_name),
          ("document", Json.str recipient_doc)]),
       ("purpose", Json.str "01"),
       ("description", Json.str "Teste TED via API")]))
    none ("TED Transfer - R$ " ++ fmt2 amount) outcome elapsed
  (ex.newState, if ex.result.success then ex.result.response_body else none)

/-- `CelcoinTester.test_internal_transfer` (lines 407-432). -/
def test_internal_transfer (st : TesterState) (amount : Rat)
    (debit_account credit_account client_code description : String)
    (outcome : ReqOutcome) (elapsed : Nat) : TesterState × Option Json :=
  let ex := make_request st "POST"
    (BASE_URL ++ "/baas-wallet-transactions-webservice/v1/wallet/internal/transfer")
    (some (Json.obj
      [("amount", Json.num amount),
       ("clientRequestId", Json.str client_code),
       ("debitParty", Json.obj [("account", Json.str debit_account)]),
       ("creditParty", Json.obj [("account", Json.str credit_account)]),
       ("description", Json.str description)]))
    none ("Transferência Interna - R$ " ++ fmt2 amount) outcome elapsed
  (ex.newState, if ex.result.success then ex.result.response_body else none)

/-- External inputs of one `run_pipeline_test` run: the transport
outcome and measured latency of each of the five calls, plus the
random uuid fragments for the client codes (lines 476, 485). -/
structure PipelineEnv where
  auth_outcome : ReqOutcome
  dict_outcome : ReqOutcome
  dict_elapsed : Nat
  payment_outcome : ReqOutcome
  payment_elapsed : Nat
  status_outcome : ReqOutcome
  status_elapsed : Nat
  ted_outcome : ReqOutcome
  ted_elapsed : Nat
  uuid_hex : String
  ted_uuid_hex : String

/-- `CelcoinTester.run_pipeline_test` (lines 458-489): authentication
first; on failure the remaining sequence is skipped, on success the
four further steps run unconditionally. -/
def run_pipeline_test (st : TesterState) (env : PipelineEnv) : TesterState :=
  let a := authenticate st env.auth_outcome
  if a.2 then
    let s2 := (test_pix_dict_lookup a.1 "test@example.com" "EMAIL"
      env.dict_outcome env.dict_elapsed).1
    let s3 := (test_pix_payment s2 (105 / 10 : Rat) "test@example.com" "EMAIL"
      ("TEST_" ++ env.uuid_hex) "Teste automatizado"
      env.payment_outcome env.payment_elapsed).1
    let s4 := (test_pix_status s3 "123456789"
      env.status_outcome env.status_elapsed).1
    (test_ted_transfer s4 (100 : Rat) "001" "1234" "12345-6" "João Silva"
      "12345678901" ("TED_" ++ env.ted_uuid_hex)
      env.ted_outcome env.ted_elapsed).1
  else a.1

/-- A fresh `CelcoinTester` state (lines 195-199): no token, an empty
session (concrete id and start instant standing for the random uuid and
the clock). -/
def init_state : TesterState :=
  { access_token := none,
    session := { session_id := "ab12cd34", start_time := 0 } }

/-- The exceptions `ReportGenerator.generate_report` can raise:
`divisionByZero` models `ZeroDivisionError` from the success-rate
expression at line 91; `formatNone` models the `TypeError` raised by
formatting a `None` execution time with `:.3f` at line 107. -/
inductive ReportError where
  | divisionByZero
  | formatNone
deriving DecidableEq

/-- Count of successful results (line 89). -/
def successCount (s : TestSession) : Nat :=
  (s.results.filter (fun r => r.success)).length

/-- Count of failed results (line 90). -/
def failureCount (s : TestSession) : Nat :=
  (s.results.filter (fun r => !r.success)).length

/-- The success-rate expression of the summary table (line 91):
`len(successes) / len(results) * 100`, raising `ZeroDivisionError` on an
empty session. -/
def success_rate (s : TestSession) : Except ReportError Rat :=
  if s.results.length = 0 then .error .divisionByZero
  else .ok ((successCount s : Rat) / (s.results.length : Rat) * 100)

/-- Header filter of the detail section (lines 128-129). -/
def important_headers (hs : List (String × String)) : List (String × String) :=
  hs.filter (fun kv =>
    ["content-type", "x-ratelimit-remaining", "x-request-id"].contains (pyLower kv.fst))

/-- Data rendered for one result in the detail section (lines 99-146):
the optional sub-sections appear exactly when their guard is truthy. -/
structure DetailEntry where
  index : Nat
  test_name : String
  method : String
  endpoint : String
  response_status : Option Nat
  execution_time : Nat
  success : Bool
  request_payload : Option Json
  response_body : Option Json
  shown_headers : Option (List (String × String))
  error_message : Option String

/-- Rendering of one result (lines 99-146); formatting a `None`
execution time with `:.3f` (line 107) raises. -/
def detail_entry (i : Nat) (r : TestResult) : Except ReportError DetailEntry :=
  match r.execution_time with
  | none => .error .formatNone
  | some t =>
    .ok { index := i, test_name := r.test_name, method := r.method,
          endpoint := r.endpoint, response_status := r.response_status,
          execution_time := t, success := r.success,
          request_payload :=
            if pyTruthy r.request_payload then r.request_payload else none,
          response_body :=
            if pyTruthy r.response_body then r.response_body else none,
          shown_headers :=
            match r.response_headers with
            | none => none
            | some hs =>
              if hs.isEmpty then none
              else if (important_headers hs).isEmpty then none
              else some (important_headers hs),
          error_message := r.error_message }

/-- The detail loop (line 99, `enumerate(session.results, 1)`). -/
def detail_entries (i : Nat) : List TestResult → Except ReportError (List DetailEntry)
  | [] => .ok []
  | r :: rs =>
    match detail_entry i r with
    | .error e => .error e
    | .ok d =>
      match detail_entries (i + 1) rs with
      | .error e => .error e
      | .ok ds => .ok (d :: ds)

/-- `x or float('inf')` at line 166: `None` and `0` are falsy, hence
mapped to infinity, here represented by `none`. -/
def orInf (x : Option Nat) : Option Nat :=
  match x with
  | none => none
  | some 0 => none
  | some n => some n

/-- Minimum where `none` is the infinite element. -/
def minInf (a b : Option Nat) : Option Nat :=
  match a, b with
  | none, b => b
  | some m, none => some m
  | some m, some n => some (min m n)

/-- Aggregate-timing numbers (lines 165-167). -/
structure PerfStats where
  avg_time : Rat
  fastest : Option Nat
  slowest : Nat

/-- The aggregate-timing block (lines 164-175): guarded by
`if session.results:` so nothing in it — in particular the division by
the result count — is evaluated on an empty session. -/
def performance_metrics (s : TestSession) : Option PerfStats :=
  if s.results.isEmpty then none
  else some
    { avg_time :=
        ((s.results.map (fun r => ((r.execution_time.getD 0 : Nat) : Rat))).sum)
          / (s.results.length : Rat),
      fastest := (s.results.map (fun r => orInf r.execution_time)).foldl minInf none,
      slowest := (s.results.map (fun r => r.execution_time.getD 0)).foldl max 0 }

/-- The computed content of the report, with the static pipeline text
and the environment footer (fixed strings) omitted. -/
structure ReportData where
  session_id : String
  duration : Option Nat
  total : Nat
  successes : Nat
  failures : Nat
  rate : Rat
  details : List DetailEntry
  perf : Option PerfStats

/-- `ReportGenerator.generate_report` (lines 74-190) as the sequence of
its fallible computations: the summary f-string (whose only fallible
part is the success-rate division, line 91) is evaluated before the
detail loop, which precedes the aggregate-timing block. -/
def generate_report (s : TestSession) : Except ReportError ReportData :=
  match success_rate s with
  | .error e => .error e
  | .ok rate =>
    match detail_entries 1 s.results with
    | .error e => .error e
    | .ok ds =>
      .ok { session_id := s.session_id, duration := s.get_duration,
            total := s.results.length, successes := successCount s,
            failures := failureCount s, rate := rate, details := ds,
            perf := performance_metrics s }

theorem make_request_results_length (st : TesterState) (method url : String)
    (payload params : Option Json) (test_name : String)
    (outcome : ReqOutcome) (elapsed : Nat) :
    (make_request st method url payload params test_name outcome elapsed).newState.session.results.length
      = st.session.results.length + 1 := by
  rw [make_request_newState_results]; simp

theorem test_pix_dict_lookup_results_length (st : TesterState) (k t : String)
    (o : ReqOutcome) (e : Nat) :
    (test_pix_dict_lookup st k t o e).1.session.results.length
      = st.session.results.length + 1 := by
  simp [test_pix_dict_lookup, make_request_results_length]

theorem test_pix_payment_results_length (st : TesterState) (a : Rat)
    (k t c d : String) (o : ReqOutcome) (e : Nat) :
    (test_pix_payment st a k t c d o e).1.session.results.length
      = st.session.results.length + 1 := by
  simp [test_pix_payment, make_request_results_length]

theorem test_pix_status_results_length (st : TesterState) (tid : String)
    (o : ReqOutcome) (e : Nat) :
    (test_pix_status st tid o e).1.session.results.length
      = st.session.results.length + 1 := by
  simp [test_pix_status, make_request_results_length]

theorem test_ted_transfer_results_length (st : TesterState) (a : Rat)
    (b g acc n d c : String) (o : ReqOutcome) (e : Nat) :
    (test_ted_transfer st a b g acc n d c o e).1.session.results.length
      = st.session.results.length + 1 := by
  simp [test_ted_transfer, make_request_results_length]

theorem authenticate_exception (st : TesterState) (m : String) :
    authenticate st (.exception m) = (st, false) := rfl

theorem authenticate_200_obj (st : TesterState) (r : HttpResponse)
    (fields : List (String × Json))
    (h200 : r.status = 200) (hj : r.json = some (Json.obj fields)) :
    authenticate st (.response r)
      = ({ st with
           access_token := fields.lookup "access_token",
           session := st.session.add_result
             { test_name := "Autenticação OAuth2", endpoint := "/v5/token",
               method := "POST",
               request_payload := some (Json.obj
                 [("client_id", Json.str "***"),
                  ("grant_type", Json.str "client_credentials")]),
               response_status := some r.status,
               response_headers := some r.headers,
               response_body := some (Json.obj
                 [("access_token", Json.str "***"),
                  ("expires_in", (fields.lookup "expires_in").getD Json.null)]),
               success := true } }, true) := by
  simp [authenticate, h200, hj]

theorem authenticate_non200_parseable (st : TesterState) (r : HttpResponse)
    (h200 : r.status ≠ 200) (hbody : r.text = "" ∨ r.json.isSome) :
    (authenticate st (.response r)).2 = false
    ∧ (authenticate st (.response r)).1.access_token = st.access_token
    ∧ ∃ res, (authenticate st (.response r)).1.session.results
          = st.session.results ++ [res]
        ∧ res.success = false
        ∧ res.error_message = some ("Erro na autenticação: " ++ toString r.status) := by
  by_cases ht : r.text = ""
  · simp [authenticate, h200, ht, TestSession.add_result]
  · cases hj : r.json with
    | none =>
      exfalso
      rcases hbody with h | h
      · exact ht h
      · rw [hj] at h; exact Bool.noConfusion h
    | some b =>
      simp [authenticate, h200, ht, hj, TestSession.add_result]

theorem authenticate_non200_unparseable (st : TesterState) (r : HttpResponse)
    (h200 : r.status ≠ 200) (ht : r.text ≠ "") (hj : r.json = none) :
    authenticate st (.response r) = (st, false) := by
  simp [authenticate, h200, ht, hj]

theorem authenticate_false_token (st : TesterState) (o : ReqOutcome)
    (h : (authenticate st o).2 = false) :
    (authenticate st o).1.access_token = st.access_token := by
  cases o with
  | exception m => rfl
  | response r =>
    by_cases h200 : r.status = 200
    · cases hj : r.json with
      | none => simp [authenticate, h200, hj]
      | some j =>
        cases j with
        | null => simp [authenticate, h200, hj]
        | bool b => simp [authenticate, h200, hj]
        | num q => simp [authenticate, h200, hj]
        | str s => simp [authenticate, h200, hj]
        | arr l => simp [authenticate, h200, hj]
        | obj fields => simp [authenticate, h200, hj] at h
    · by_cases ht : r.text = ""
      · simp [authenticate, h200, ht]
      · cases hj : r.json with
        | none => simp [authenticate, h200, ht, hj]
        | some b => simp [authenticate, h200, ht, hj]

theorem authenticate_true_effect (st : TesterState) (o : ReqOutcome)
    (h : (authenticate st o).2 = true) :
    (authenticate st o).1.session.results.length = st.session.results.length + 1 := by
  cases o with
  | exception m => exact Bool.noConfusion h
  | response r =>
    by_cases h200 : r.status = 200
    · cases hj : r.json with
      | none => simp [authenticate, h200, hj] at h
      | some j =>
        cases j with
        | null => simp [authenticate, h200, hj] at h
        | bool b => simp [authenticate, h200, hj] at h
        | num q => simp [authenticate, h200, hj] at h
        | str s => simp [authenticate, h200, hj] at h
        | arr l => simp [authenticate, h200, hj] at h
        | obj fields => simp [authenticate, h200, hj, TestSession.add_result]
    · by_cases ht : r.text = ""
      · simp [authenticate, h200, ht] at h
      · cases hj : r.json with
        | none => simp [authenticate, h200, ht, hj] at h
        | some b => simp [authenticate, h200, ht, hj] at h

theorem authenticate_end_time (st : TesterState) (o : ReqOutcome) :
    (authenticate st o).1.session.end_time = st.session.end_time := by
  cases o with
  | exception m => rfl
  | response r =>
    by_cases h200 : r.status = 200
    · cases hj : r.json with
      | none => simp [authenticate, h200, hj]
      | some j =>
        cases j with
        | null => simp [authenticate, h200, hj]
        | bool b => simp [authenticate, h200, hj]
        | num q => simp [authenticate, h200, hj]
        | str s => simp [authenticate, h200, hj]
        | arr l => simp [authenticate, h200, hj]
        | obj fields => simp [authenticate, h200, hj, TestSession.add_result]
    · by_cases ht : r.text = ""
      · simp [authenticate, h200, ht, TestSession.add_result]
      · cases hj : r.json with
        | none => simp [authenticate, h200, ht, hj]
        | some b => simp [authenticate, h200, ht, hj, TestSession.add_result]

theorem run_pipeline_auth_false (st : TesterState) (env : PipelineEnv)
    (h : (authenticate st env.auth_outcome).2 = false) :
    run_pipeline_test st env = (authenticate st env.auth_outcome).1 := by
  simp [run_pipeline_test, h]

theorem run_pipeline_auth_true_length (st : TesterState) (env : PipelineEnv)
    (h : (authenticate st env.auth_outcome).2 = true) :
    (run_pipeline_test st env).session.results.length
      = st.session.results.length + 5 := by
  simp only [run_pipeline_test, h, if_true]
  rw [test_ted_transfer_results_length, test_pix_status_results_length,
    test_pix_payment_results_length, test_pix_dict_lookup_results_length,
    authenticate_true_effect st env.auth_outcome h]

/-- The arguments of one Executor invocation, for reasoning about
sequences of calls. -/
structure CallSpec where
  method : String
  url : String
  payload : Option Json := none
  params : Option Json := none
  test_name : String := ""
  outcome : ReqOutcome
  elapsed : Nat := 0

/-- One Executor invocation, keeping only the state. -/
def exec_call (st : TesterState) (c : CallSpec) : TesterState :=
  (make_request st c.method c.url c.payload c.params c.test_name c.outcome c.elapsed).newState

/-- A sequence of Executor invocations. -/
def exec_calls (st : TesterState) (calls : List CallSpec) : TesterState :=
  calls.foldl exec_call st

/-- The results the invocations of `exec_calls` produce, in invocation
order. -/
def call_results (st : TesterState) : List CallSpec → List TestResult
  | [] => []
  | c :: cs =>
    (make_request st c.method c.url c.payload c.params c.test_name c.outcome c.elapsed).result
      :: call_results (exec_call st c) cs

theorem exec_calls_results : ∀ (calls : List CallSpec) (st : TesterState),
    (exec_calls st calls).session.results
      = st.session.results ++ call_results st calls := by
  intro calls
  induction calls with
  | nil => intro st; simp [exec_calls, call_results]
  | cons c cs ih =>
    intro st
    show (exec_calls (exec_call st c) cs).session.results = _
    rw [ih (exec_call st c)]
    have h1 : (exec_call st c).session.results
        = st.session.results
          ++ [(make_request st c.method c.url c.payload c.params c.test_name c.outcome c.elapsed).result] :=
      make_request_newState_results st c.method c.url c.payload c.params c.test_name c.outcome c.elapsed
    rw [h1, call_results, List.append_assoc]
    rfl

theorem call_results_length : ∀ (calls : List CallSpec) (st : TesterState),
    (call_results st calls).length = calls.length := by
  intro calls
  induction calls with
  | nil => intro st; rfl
  | cons c cs ih => intro st; simp [call_results, ih]

theorem detail_entry_no_div (i : Nat) (r : TestResult) :
    detail_entry i r ≠ Except.error ReportError.divisionByZero := by
  cases h : r.execution_time with
  | none => simp [detail_entry, h]
  | some t => simp [detail_entry, h]

theorem detail_entries_no_div : ∀ (rs : List TestResult) (i : Nat),
    detail_entries i rs ≠ Except.error ReportError.divisionByZero := by
  intro rs
  induction rs with
  | nil => intro i; simp [detail_entries]
  | cons r rs ih =>
    intro i
    cases hd : detail_entry i r with
    | error e =>
      cases e with
      | divisionByZero => exact absurd hd (detail_entry_no_div i r)
      | formatNone => simp [detail_entries, hd]
    | ok d =>
      cases hds : detail_entries (i + 1) rs with
      | error e =>
        cases e with
        | divisionByZero => exact absurd hds (ih (i + 1))
        | formatNone => simp [detail_entries, hd, hds]
      | ok ds => simp [detail_entries, hd, hds]

/-- C1: for every Executor (`_make_request`) call that receives a
response, the resulting TestResult's success flag is true if and only
if the response status code is one of 200, 201, 202; any other status
marks the result failed. -/
theorem make_request_success_iff_status (st : TesterState) (method url : String)
    (payload params : Option Json) (test_name : String)
    (r : HttpResponse) (elapsed : Nat)
    (hm : supported_methods.contains (pyUpper method) = true) :
    ((make_request st method url payload params test_name
        (.response r) elapsed).result.success = true)
      ↔ (r.status = 200 ∨ r.status = 201 ∨ r.status = 202) := by
  have hm2 : pyUpper method ∈ supported_methods := by simpa using hm
  simp [make_request, hm2, success_statuses]

theorem make_request_success_iff_status_witness :
    supported_methods.contains (pyUpper "POST") = true
    ∧ ((make_request init_state "POST" (BASE_URL ++ "/pix/v1/payment")
          none none "t" (.response { status := 201 }) 2).result.success = true) := by
  have h := make_request_success_iff_status init_state "POST"
    (BASE_URL ++ "/pix/v1/payment") none none "t" { status := 201 } 2 (by decide)
  exact ⟨by decide, h.mpr (Or.inr (Or.inl rfl))⟩

/-- C2: every Executor (`_make_request`) invocation appends exactly one
TestResult to the Session on every path — success, non-success status,
and transport exception — so after any sequence of invocations the
Session's result list is the original list followed by the produced
results in invocation order, and its length grows by the number of
invocations. -/
theorem make_request_appends_exactly_one :
    (∀ (st : TesterState) (method url : String) (payload params : Option Json)
        (test_name : String) (outcome : ReqOutcome) (elapsed : Nat),
      (make_request st method url payload params test_name outcome elapsed).newState.session.results
        = st.session.results
          ++ [(make_request st method url payload params test_name outcome elapsed).result])
    ∧ (∀ (st : TesterState) (calls : List CallSpec),
      (exec_calls st calls).session.results
        = st.session.results ++ call_results st calls)
    ∧ (∀ (st : TesterState) (calls : List CallSpec),
      (exec_calls st calls).session.results.length
        = st.session.results.length + calls.length) := by
  refine ⟨make_request_newState_results, fun st calls => exec_calls_results calls st, ?_⟩
  intro st calls
  rw [exec_calls_results calls st, List.length_append, call_results_length calls st]

/-- C6: for every response whose body is not valid JSON
(`response.json()` raises), the Executor stores the raw response text
under the fallback key `raw_response` instead of raising, and success
is still determined solely by the HTTP status code. -/
theorem make_request_json_fallback (st : TesterState) (method url : String)
    (payload params : Option Json) (test_name : String)
    (r : HttpResponse) (elapsed : Nat)
    (hm : supported_methods.contains (pyUpper method) = true)
    (hjson : r.json = none) :
    (make_request st method url payload params test_name
        (.response r) elapsed).result.response_body
      = some (Json.obj [("raw_response", Json.str r.text)])
    ∧ (((make_request st method url payload params test_name
          (.response r) elapsed).result.success = true)
        ↔ (r.status = 200 ∨ r.status = 201 ∨ r.status = 202)) := by
  have hm2 : pyUpper method ∈ supported_methods := by simpa using hm
  constructor
  · simp [make_request, hm2, hjson]
  · simp [make_request, hm2, success_statuses]

theorem make_request_json_fallback_witness :
    (make_request init_state "GET" "u" none none "t"
        (.response { status := 500, text := "Internal Server Error" }) 1).result.response_body
      = some (Json.obj [("raw_response", Json.str "Internal Server Error")]) := by
  have h := make_request_json_fallback init_state "GET" "u" none none "t"
    { status := 500, text := "Internal Server Error" } 1 (by decide) rfl
  exact h.1

/-- C3 counterexample: an authenticate call that encounters a transport
exception records NO TestResult at all — the `except` branch (lines
302-304) returns `False` without touching the session — refuting the
claim that a failed TestResult is recorded in the Session on the
transport-exception path. -/
theorem authenticate_exception_records_nothing :
    (authenticate init_state (ReqOutcome.exception "Connection refused")).2 = false
    ∧ (authenticate init_state (ReqOutcome.exception "Connection refused")).1.session.results = []
    ∧ (authenticate init_state (ReqOutcome.exception "Connection refused")).1.session.results.length ≠ 1 := by
  exact ⟨rfl, rfl, by decide⟩

/-- C3 (amended): every authenticate call that receives a non-200
status or encounters a transport exception leaves the stored token
unchanged and returns failure; a failed TestResult is recorded exactly
when a non-200 response with an empty or JSON-parseable body was
received, while on a transport exception (or a non-200 response whose
non-empty body fails to parse) nothing at all is recorded. -/
theorem authenticate_failure_amended (st : TesterState) (r : HttpResponse) (m : String)
    (h200 : r.status ≠ 200) :
    (authenticate st (.response r)).2 = false
    ∧ (authenticate st (.response r)).1.access_token = st.access_token
    ∧ ((r.text = "" ∨ r.json.isSome) →
        ∃ res, (authenticate st (.response r)).1.session.results
            = st.session.results ++ [res]
          ∧ res.success = false)
    ∧ (r.text ≠ "" → r.json = none → authenticate st (.response r) = (st, false))
    ∧ authenticate st (.exception m) = (st, false) := by
  have hfalse : (authenticate st (.response r)).2 = false := by
    by_cases ht : r.text = ""
    · simp [authenticate, h200, ht]
    · cases hj : r.json with
      | none => simp [authenticate, h200, ht, hj]
      | some b => simp [authenticate, h200, ht, hj]
  refine ⟨hfalse, authenticate_false_token st (.response r) hfalse, ?_, ?_, rfl⟩
  · intro hbody
    obtain ⟨-, -, res, h1, h2, -⟩ := authenticate_non200_parseable st r h200 hbody
    exact ⟨res, h1, h2⟩
  · intro ht hj
    exact authenticate_non200_unparseable st r h200 ht hj

theorem authenticate_failure_amended_witness :
    (401 : Nat) ≠ 200
    ∧ (authenticate init_state (.response { status := 401 })).2 = false
    ∧ (authenticate init_state (.response { status := 401 })).1.access_token = none
    ∧ (∃ res, (authenticate init_state (.response { status := 401 })).1.session.results = [res]
        ∧ res.success = false)
    ∧ authenticate init_state (.exception "timed out") = (init_state, false) := by
  have h := authenticate_failure_amended init_state { status := 401 } "timed out" (by decide)
  exact ⟨by decide, h.1, h.2.1, h.2.2.1 (Or.inl rfl), h.2.2.2.2⟩

/-- C4 counterexample: `finish` unconditionally overwrites the end time
with the current instant (lines 52-53), so a repeated finalize at a
later instant changes an already-set end time, refuting the claim that
once set it never changes under any further operations. -/
theorem finish_overwrites_end_time :
    ((init_state.session.finish 1).finish 2).end_time = some 2
    ∧ (init_state.session.finish 1).end_time = some 1
    ∧ ((init_state.session.finish 1).finish 2).end_time
        ≠ (init_state.session.finish 1).end_time := by
  exact ⟨rfl, rfl, by decide⟩

/-- C4 (amended): the end time is only ever written by `finish`, which
stores the instant it is called at: `add_result` never changes it, and
neither does any Executor call or authenticate call; hence once set it
changes only under a repeated finalize, which overwrites it with the
new current instant. -/
theorem end_time_only_changed_by_finish :
    (∀ (s : TestSession) (r : TestResult), (s.add_result r).end_time = s.end_time)
    ∧ (∀ (s : TestSession) (t : Nat), (s.finish t).end_time = some t)
    ∧ (∀ (st : TesterState) (method url : String) (payload params : Option Json)
          (test_name : String) (outcome : ReqOutcome) (elapsed : Nat),
        (make_request st method url payload params test_name outcome elapsed).newState.session.end_time
          = st.session.end_time)
    ∧ (∀ (st : TesterState) (o : ReqOutcome),
        (authenticate st o).1.session.end_time = st.session.end_time) := by
  exact ⟨fun s r => rfl, fun s t => rfl, make_request_end_time, authenticate_end_time⟩

/-- A 200 token response whose `access_token` value is the empty
string. -/
def emptyTokenResp : HttpResponse :=
  { status := 200, text := "tok",
    json := some (Json.obj
      [("access_token", Json.str ""), ("expires_in", Json.num 3600)]) }

/-- C5 counterexample: an authenticate call receiving HTTP 200 with a
body containing `access_token` whose value is the empty string stores
that token and returns success, but — because line 227 tests Python
truthiness of the stored token and `""` is falsy — the very next
Executor call is sent with a bare content-type header and NO
Authorization header, refuting the claim that the stored token appears
in the Authorization header of every subsequent call. -/
theorem authenticate_empty_token_absent_from_headers :
    (authenticate init_state (.response emptyTokenResp)).2 = true
    ∧ (authenticate init_state (.response emptyTokenResp)).1.access_token
        = some (Json.str "")
    ∧ (make_request (authenticate init_state (.response emptyTokenResp)).1
          "GET" "u" none none "t" (.exception "e") 0).sent_headers
        = [("Content-Type", "application/json")]
    ∧ ((make_request (authenticate init_state (.response emptyTokenResp)).1
          "GET" "u" none none "t" (.exception "e") 0).sent_headers).lookup "Authorization"
        = none := by
  exact ⟨rfl, rfl, rfl, rfl⟩

/-- C5 (amended): for every authenticate call that receives HTTP 200
with a JSON-object body whose `access_token` value is truthy (in
particular any nonempty string), that token is stored, the recorded
TestResult redacts it as `"***"` and is successful, the stored token
appears in the Authorization header (`Bearer <token>`) attached to
every subsequent Executor call, and the stored token is preserved by
Executor calls and by any authenticate attempt that does not succeed —
i.e. until overwritten by a later successful authenticate. -/
theorem authenticate_success_token_flow (st : TesterState) (r : HttpResponse)
    (fields : List (String × Json)) (tok : Json)
    (h200 : r.status = 200) (hj : r.json = some (Json.obj fields))
    (htok : fields.lookup "access_token" = some tok)
    (htr : tok.truthy = true) :
    (authenticate st (.response r)).2 = true
    ∧ (authenticate st (.response r)).1.access_token = some tok
    ∧ (∃ res, (authenticate st (.response r)).1.session.results
          = st.session.results ++ [res]
        ∧ res.success = true
        ∧ res.response_body = some (Json.obj
            [("access_token", Json.str "***"),
             ("expires_in", (fields.lookup "expires_in").getD Json.null)]))
    ∧ (request_headers (authenticate st (.response r)).1).lookup "Authorization"
        = some ("Bearer " ++ pyFormat (some tok))
    ∧ (∀ (method url : String) (payload params : Option Json) (test_name : String)
          (outcome : ReqOutcome) (elapsed : Nat),
        (make_request (authenticate st (.response r)).1 method url payload params
            test_name outcome elapsed).sent_headers
          = request_headers (authenticate st (.response r)).1
        ∧ (make_request (authenticate st (.response r)).1 method url payload params
            test_name outcome elapsed).newState.access_token = some tok)
    ∧ (∀ o, (authenticate (authenticate st (.response r)).1 o).2 = false →
        (authenticate (authenticate st (.response r)).1 o).1.access_token = some tok) := by
  have ha := authenticate_200_obj st r fields h200 hj
  have htoken : (authenticate st (.response r)).1.access_token = some tok := by
    rw [ha]; simpa using htok
  refine ⟨by rw [ha], htoken, ?_, ?_, ?_, ?_⟩
  · rw [ha]
    exact ⟨_, rfl, rfl, rfl⟩
  · simp [request_headers, get_headers, htoken, pyTruthy, htr]
  · intro method url payload params test_name outcome elapsed
    exact ⟨make_request_sent_headers _ method url payload params test_name outcome elapsed,
      by rw [make_request_token]; exact htoken⟩
  · intro o hfalse
    rw [authenticate_false_token _ o hfalse]
    exact htoken

/-- A 200 token response carrying a nonempty token. -/
def fullTokenResp : HttpResponse :=
  { status := 200, text := "tok",
    json := some (Json.obj
      [("access_token", Json.str "tok123"), ("expires_in", Json.num 3600)]) }

theorem authenticate_success_token_flow_witness :
    (authenticate init_state (.response fullTokenResp)).2 = true
    ∧ (authenticate init_state (.response fullTokenResp)).1.access_token
        = some (Json.str "tok123")
    ∧ (request_headers (authenticate init_state (.response fullTokenResp)).1).lookup "Authorization"
        = some ("Bearer " ++ pyFormat (some (Json.str "tok123"))) := by
  have h := authenticate_success_token_flow init_state fullTokenResp
    [("access_token", Json.str "tok123"), ("expires_in", Json.num 3600)]
    (Json.str "tok123") rfl rfl rfl (by decide)
  exact ⟨h.1, h.2.1, h.2.2.2.1⟩

/-- C10: an authenticate call that receives HTTP 200 whose JSON-object
body has no `access_token` field still records a successful TestResult
and returns success, while the stored token becomes `None`
(`dict.get` of a missing key), so every subsequent Executor call is
sent with the bare content-type header only and no Authorization
header. -/
theorem authenticate_missing_token_field (st : TesterState) (r : HttpResponse)
    (fields : List (String × Json))
    (h200 : r.status = 200) (hj : r.json = some (Json.obj fields))
    (hmiss : fields.lookup "access_token" = none) :
    (authenticate st (.response r)).2 = true
    ∧ (authenticate st (.response r)).1.access_token = none
    ∧ (∃ res, (authenticate st (.response r)).1.session.results
          = st.session.results ++ [res]
        ∧ res.success = true)
    ∧ (∀ (method url : String) (payload params : Option Json) (test_name : String)
          (outcome : ReqOutcome) (elapsed : Nat),
        (make_request (authenticate st (.response r)).1 method url payload params
            test_name outcome elapsed).sent_headers
          = [("Content-Type", "application/json")]) := by
  have ha := authenticate_200_obj st r fields h200 hj
  have htoken : (authenticate st (.response r)).1.access_token = none := by
    rw [ha]; simpa using hmiss
  refine ⟨by rw [ha], htoken, ?_, ?_⟩
  · rw [ha]
    exact ⟨_, rfl, rfl⟩
  · intro method url payload params test_name outcome elapsed
    rw [make_request_sent_headers]
    simp [request_headers, htoken, pyTruthy]

/-- A 200 token response with no `access_token` field at all. -/
def noTokenResp : HttpResponse :=
  { status := 200, text := "tok",
    json := some (Json.obj [("expires_in", Json.num 900)]) }

theorem authenticate_missing_token_field_witness :
    (authenticate init_state (.response noTokenResp)).2 = true
    ∧ (authenticate init_state (.response noTokenResp)).1.access_token = none
    ∧ (make_request (authenticate init_state (.response noTokenResp)).1
          "POST" "u" none none "t" (.response { status := 200 }) 1).sent_headers
        = [("Content-Type", "application/json")] := by
  have h := authenticate_missing_token_field init_state noTokenResp
    [("expires_in", Json.num 900)] rfl rfl rfl
  exact ⟨h.1, h.2.1, h.2.2.2 "POST" "u" none none "t" (.response { status := 200 }) 1⟩

/-- Pipeline inputs whose authentication attempt dies with a transport
exception. -/
def pipelineEnvException : PipelineEnv :=
  { auth_outcome := .exception "Connection timed out",
    dict_outcome := .response { status := 200 }, dict_elapsed := 1,
    payment_outcome := .response { status := 200 }, payment_elapsed := 1,
    status_outcome := .response { status := 200 }, status_elapsed := 1,
    ted_outcome := .response { status := 200 }, ted_elapsed := 1,
    uuid_hex := "0a1b2c3d", ted_uuid_hex := "4e5f6a7b" }

/-- C7 counterexample: in pipeline mode an authentication that fails
with a transport exception aborts the sequence but leaves the Session
with ZERO results — `authenticate`'s `except` branch records nothing —
refuting the claim that after any authentication failure the Session
holds exactly the one failed authentication result. -/
theorem pipeline_auth_exception_empty_session :
    (authenticate init_state pipelineEnvException.auth_outcome).2 = false
    ∧ (run_pipeline_test init_state pipelineEnvException).session.results.length = 0
    ∧ (run_pipeline_test init_state pipelineEnvException).session.results.length ≠ 1 := by
  exact ⟨rfl, rfl, by decide⟩

/-- C7 (amended): in pipeline mode, a failed authentication aborts the
remaining sequence immediately; when the failure is a non-200 response
with an empty or JSON-parseable body the Session holds exactly the one
failed authentication result, whose error message contains the status
code, while on a transport exception the Session is left untouched
(zero new results); if authentication succeeds, every one of the four
later steps runs regardless of earlier step failures, leaving exactly
five new results. -/
theorem run_pipeline_auth_gate (st : TesterState) (env : PipelineEnv)
    (r : HttpResponse) (m : String) :
    ((authenticate st env.auth_outcome).2 = false →
        run_pipeline_test st env = (authenticate st env.auth_outcome).1)
    ∧ ((authenticate st env.auth_outcome).2 = true →
        (run_pipeline_test st env).session.results.length
          = st.session.results.length + 5)
    ∧ (env.auth_outcome = .response r → r.status ≠ 200 →
        (r.text = "" ∨ r.json.isSome) →
        ∃ res, (run_pipeline_test st env).session.results
            = st.session.results ++ [res]
          ∧ res.success = false
          ∧ res.error_message = some ("Erro na autenticação: " ++ toString r.status))
    ∧ (env.auth_outcome = .exception m →
        (run_pipeline_test st env).session = st.session) := by
  refine ⟨run_pipeline_auth_false st env, run_pipeline_auth_true_length st env, ?_, ?_⟩
  · intro hout h200 hbody
    obtain ⟨hfalse0, -, res, h1, h2, h3⟩ := authenticate_non200_parseable st r h200 hbody
    have hfalse : (authenticate st env.auth_outcome).2 = false := by rw [hout]; exact hfalse0
    rw [run_pipeline_auth_false st env hfalse, hout]
    exact ⟨res, h1, h2, h3⟩
  · intro hout
    have hfalse : (authenticate st env.auth_outcome).2 = false := by
      rw [hout]; rfl
    rw [run_pipeline_auth_false st env hfalse, hout]
    rfl

/-- Pipeline inputs whose authentication attempt is rejected with
HTTP 401 and an empty body. -/
def pipelineEnv401 : PipelineEnv :=
  { auth_outcome := .response { status := 401 },
    dict_outcome := .response { status := 200 }, dict_elapsed := 1,
    payment_outcome := .response { status := 200 }, payment_elapsed := 1,
    status_outcome := .response { status := 200 }, status_elapsed := 1,
    ted_outcome := .response { status := 200 }, ted_elapsed := 1,
    uuid_hex := "0a1b2c3d", ted_uuid_hex := "4e5f6a7b" }

theorem run_pipeline_auth_gate_witness :
    ∃ res, (run_pipeline_test init_state pipelineEnv401).session.results
        = init_state.session.results ++ [res]
      ∧ res.success = false
      ∧ res.error_message = some ("Erro na autenticação: " ++ toString (401 : Nat)) := by
  have h := run_pipeline_auth_gate init_state pipelineEnv401 { status := 401 } "m"
  exact h.2.2.1 rfl (by decide) (Or.inl rfl)

/-- C8: the Report Generator's aggregate-timing (performance metrics)
block is guarded by `if session.results:` (line 164), so for a Session
with zero results the block is omitted entirely — `none` — and the
division of the summed times by the result count inside it is never
attempted; for a nonempty Session the block is rendered. -/
theorem performance_metrics_none_iff_empty (s : TestSession) :
    performance_metrics s = none ↔ s.results = [] := by
  rcases hr : s.results with _ | ⟨a, as⟩
  · simp [performance_metrics, hr]
  · simp [performance_metrics, hr]

/-- C9: the summary table's success-rate expression (line 91) divides
by the result count with no guard, so `generate_report` raises
`ZeroDivisionError` exactly on an empty Session — equivalently, it
never reaches the division-by-zero branch if and only if the Session
holds at least one result. -/
theorem generate_report_div_by_zero_iff (s : TestSession) :
    generate_report s = Except.error ReportError.divisionByZero ↔ s.results = [] := by
  rcases hr : s.results with _ | ⟨a, as⟩
  · simp [generate_report, success_rate, hr]
  · cases hd : detail_entries 1 (a :: as) with
    | error e =>
      cases e with
      | divisionByZero => exact absurd hd (detail_entries_no_div (a :: as) 1)
      | formatNone => simp [generate_report, success_rate, hr, hd]
    | ok ds => simp [generate_report, success_rate, hr, hd]
